import Mathlib

/-!
Verification of the JoystickRC4DiddyBorg UDP joystick bridge
(`JoystickRC4DiddyBorg.py`) against its natural-language specification.

The Python program is shallowly embedded below: floating-point values are
modelled as exact rationals (`ℚ`), bytes and channel values as `ℕ`,
fallible decoding as `Except`, and the side-effecting session loop as a
pure state-passing function that records its externally visible actions
(UDP replies, motor commands, LED changes) in an effect list.
-/

/-! ## Configuration constants (top-of-file settings of the script) -/

/-- `axisUpDownInverted = False` (line 26). -/
def axisUpDownInverted : Bool := false

/-- `axisLeftRightInverted = False` (line 28). -/
def axisLeftRightInverted : Bool := false

/-- `slowFactor = 0.5` (line 30). -/
def slowFactor : ℚ := 0.5

/-- `voltageIn = 12.0` (line 35). -/
def voltageIn : ℚ := 12.0

/-- `voltageOut = 12.0 * 0.95` (line 36). -/
def voltageOut : ℚ := 12.0 * 0.95

/-- `switchOnMin = 1750` (line 39). -/
def switchOnMin : ℕ := 1750

/-- `buttonFastTurn = 3` (line 40; this assignment overrides the earlier
pygame leftover `buttonFastTurn = 9` on line 31). -/
def buttonFastTurn : ℕ := 3

/-- `buttonSlow = 4` (line 41; overrides the earlier `buttonSlow = 8`). -/
def buttonSlow : ℕ := 4

/-! ## Data model -/

/-- The decoded channel frame: the 8 unsigned 16-bit values produced by
`struct.unpack('xxHHHHHHHH', data)` (line 131). -/
structure ChannelFrame where
  c1 : ℕ
  c2 : ℕ
  c3 : ℕ
  c4 : ℕ
  c5 : ℕ
  c6 : ℕ
  c7 : ℕ
  c8 : ℕ
deriving DecidableEq, Repr

/-- 0-based indexing into the decoded frame, mirroring Python's
`ppmFrame[i]`. -/
def ChannelFrame.channel (f : ChannelFrame) : ℕ → ℕ
  | 0 => f.c1
  | 1 => f.c2
  | 2 => f.c3
  | 3 => f.c4
  | 4 => f.c5
  | 5 => f.c6
  | 6 => f.c7
  | 7 => f.c8
  | _ => 0

/-- Decoding failure: `struct.unpack` raises `struct.error` when the
payload length does not match the 18-byte format `xxHHHHHHHH`. -/
inductive DecodeError where
  | wrongLength
deriving DecidableEq, Repr

/-- A 16-bit little-endian value from two bytes. -/
def u16 (lo hi : ℕ) : ℕ := lo + 256 * hi

/-- `struct.unpack('xxHHHHHHHH', data)` (line 131): requires exactly
18 bytes (2 pad bytes + 8 × 2-byte unsigned values), otherwise raises. -/
def decodeFrame (raw : List ℕ) : Except DecodeError ChannelFrame :=
  if raw.length = 18 then
    .ok ⟨u16 (raw.getD 2 0) (raw.getD 3 0),
         u16 (raw.getD 4 0) (raw.getD 5 0),
         u16 (raw.getD 6 0) (raw.getD 7 0),
         u16 (raw.getD 8 0) (raw.getD 9 0),
         u16 (raw.getD 10 0) (raw.getD 11 0),
         u16 (raw.getD 12 0) (raw.getD 13 0),
         u16 (raw.getD 14 0) (raw.getD 15 0),
         u16 (raw.getD 16 0) (raw.getD 17 0)⟩
  else .error .wrongLength

/-- Modelled from the spec: the repository contains no encoder (frames are
produced by the remote app); §4.1/§8 describe the layout as 2 skipped
header bytes followed by the 8 unsigned 16-bit values in the frame's
fixed (little-endian) byte order. -/
def encodeFrame (h1 h2 : ℕ) (f : ChannelFrame) : List ℕ :=
  [h1, h2,
   f.c1 % 256, f.c1 / 256,
   f.c2 % 256, f.c2 / 256,
   f.c3 % 256, f.c3 / 256,
   f.c4 % 256, f.c4 / 256,
   f.c5 % 256, f.c5 / 256,
   f.c6 % 256, f.c6 / 256,
   f.c7 % 256, f.c7 / 256,
   f.c8 % 256, f.c8 / 256]

/-- All eight channel values fit in 16 bits. -/
def ChannelFrame.wf (f : ChannelFrame) : Prop :=
  f.c1 < 65536 ∧ f.c2 < 65536 ∧ f.c3 < 65536 ∧ f.c4 < 65536 ∧
  f.c5 < 65536 ∧ f.c6 < 65536 ∧ f.c7 < 65536 ∧ f.c8 < 65536

instance (f : ChannelFrame) : Decidable f.wf := by
  unfold ChannelFrame.wf; infer_instance

/-! ## Channel mapping -/

/-- `buttonPushed` (lines 44-47): `ppmFrame[channelNumber-1] > switchOnMin`. -/
def buttonPushed (ppmFrame : ChannelFrame) (channelNumber : ℕ) : Bool :=
  decide (ppmFrame.channel (channelNumber - 1) > switchOnMin)

/-- Axis normalisation (lines 134-141): `(raw - 1500) / 500`, negated form
when the inversion flag is set. -/
def normalizeAxis (inverted : Bool) (raw : ℕ) : ℚ :=
  if inverted then (-(raw : ℚ) + 1500) / 500 else ((raw : ℚ) - 1500) / 500

/-- Line 137: `leftRight = (float(ppmFrame[0]) - 1500) / 500` — the
steering axis is read from the first decoded channel. -/
def mappedSteering (f : ChannelFrame) : ℚ :=
  normalizeAxis axisLeftRightInverted (f.channel 0)

/-- Line 141: `upDown = (float(ppmFrame[1]) - 1500) / 500` — the throttle
axis is read from the second decoded channel. -/
def mappedThrottle (f : ChannelFrame) : ℚ :=
  normalizeAxis axisUpDownInverted (f.channel 1)

/-! ## Control law -/

/-- Lines 143-160: steering attenuation, drive initialisation, dead-zone /
turn mix, and the slow-button multiplier.  Returns the `(driveLeft,
driveRight)` pair before the final `maxPower` scaling (the Python
variables `driveLeft`, `driveRight`). -/
def computeDrive (leftRight upDown : ℚ) (fastTurn slow : Bool)
    (slowFactor : ℚ) : ℚ × ℚ :=
  let leftRight := if fastTurn then leftRight else leftRight * 0.5
  let driveLeft := -upDown
  let driveRight := -upDown
  let dlr :=
    if leftRight < -0.05 then
      (driveLeft * (1.0 + 2.0 * leftRight), driveRight)
    else if leftRight > 0.05 then
      (driveLeft, driveRight * (1.0 - 2.0 * leftRight))
    else
      (driveLeft, driveRight)
  let driveLeft := if slow then dlr.1 * slowFactor else dlr.1
  let driveRight := if slow then dlr.2 * slowFactor else dlr.2
  (driveLeft, driveRight)

/-- The final drive command sent to the motors (lines 163-164):
`SetMotor1(driveLeft * maxPower)`, `SetMotor2(driveRight * maxPower)`. -/
def driveCommand (leftRight upDown : ℚ) (fastTurn slow : Bool)
    (slowFactor maxPower : ℚ) : ℚ × ℚ :=
  let d := computeDrive leftRight upDown fastTurn slow slowFactor
  (d.1 * maxPower, d.2 * maxPower)

/-- Power-limit computation (lines 80-83). -/
def maxPowerOf (voltageOut voltageIn : ℚ) : ℚ :=
  if voltageOut > voltageIn then 1.0 else voltageOut / voltageIn

/-- The program's `maxPower` value. -/
def maxPower : ℚ := maxPowerOf voltageOut voltageIn

example : maxPower = 19/20 := by
  norm_num [maxPower, maxPowerOf, voltageOut, voltageIn]
example : slowFactor = 1/2 := by norm_num [slowFactor]
example : computeDrive (-1) 1 true false slowFactor = (1, -1) := by
  norm_num [computeDrive, slowFactor]
example : computeDrive 0 1 true false slowFactor = (-1, -1) := by
  norm_num [computeDrive, slowFactor]

/-! ## Session loop -/

/-- Externally visible actions of one loop iteration: UDP replies
(`sendto`), motor commands (`SetMotor1`/`SetMotor2`) and LED changes. -/
inductive Effect where
  | sendTo (msg : String)
  | setMotor1 (v : ℚ)
  | setMotor2 (v : ℚ)
  | setLedShowBattery (b : Bool)
  | setLeds (r g b : ℚ)
deriving DecidableEq, Repr

/-- The state the loop threads across iterations (lines 91, 104-105):
the last computed drive values and the LED/battery-display mode. -/
structure LoopState where
  driveLeft : ℚ
  driveRight : ℚ
  ledBatteryMode : Bool
deriving DecidableEq, Repr

/-- State at loop entry: `driveLeft = driveRight = 0.0` (lines 104-105),
`ledBatteryMode = True` (line 91). -/
def initialState : LoopState :=
  { driveLeft := 0.0, driveRight := 0.0, ledBatteryMode := true }

/-- Fault/LED edge handling (lines 166-175): on a motor fault the LEDs
are switched to purple once, and back to battery mode once when the
fault clears.  Returns the new `ledBatteryMode` and the LED effects. -/
def faultStep (ledBatteryMode : Bool) (fault1 fault2 : Bool) :
    Bool × List Effect :=
  if fault1 || fault2 then
    if ledBatteryMode then
      (false, [.setLedShowBattery false, .setLeds 1 0 1])
    else
      (ledBatteryMode, [])
  else
    if !ledBatteryMode then
      (true, [.setLedShowBattery true])
    else
      (ledBatteryMode, [])

/-- Processing of one decoded control frame (lines 133-175): axis
mapping, control law, motor dispatch, fault/LED handling. -/
def processFrame (st : LoopState) (ppmFrame : ChannelFrame)
    (fault1 fault2 : Bool) : LoopState × List Effect :=
  let leftRight := mappedSteering ppmFrame
  let upDown := mappedThrottle ppmFrame
  let d := computeDrive leftRight upDown
    (buttonPushed ppmFrame buttonFastTurn) (buttonPushed ppmFrame buttonSlow)
    slowFactor
  let f := faultStep st.ledBatteryMode fault1 fault2
  (⟨d.1, d.2, f.1⟩,
   [.setMotor1 (d.1 * maxPower), .setMotor2 (d.2 * maxPower)] ++ f.2)

/-- One iteration of the receive loop (lines 113-175).  The two
single-byte queries `b'?'` (63) and `b'0'` (48) get fixed replies and
skip the control pipeline; any other payload goes through
`struct.unpack`, whose failure is an uncaught exception, modelled as
`.error`. -/
def sessionStep (st : LoopState) (data : List ℕ) (fault1 fault2 : Bool) :
    Except DecodeError (LoopState × List Effect) :=
  if data = [63] then .ok (st, [.sendTo "T=Diddyborg"])
  else if data = [48] then .ok (st, [.sendTo "1.0"])
  else
    match decodeFrame data with
    | .error e => .error e
    | .ok ppmFrame => .ok (processFrame st ppmFrame fault1 fault2)

/-- The receive loop over a sequence of datagrams (with the fault bits
read in each iteration).  An uncaught decode exception terminates the
loop: the remaining datagrams are never processed. -/
def runSession (st : LoopState) :
    List (List ℕ × Bool × Bool) → LoopState × List Effect × Option DecodeError
  | [] => (st, [], none)
  | (data, f1, f2) :: rest =>
    match sessionStep st data f1 f2 with
    | .error e => (st, [], some e)
    | .ok (st', effs) =>
      let r := runSession st' rest
      (r.1, effs ++ r.2.1, r.2.2)

/-- The per-cycle dispatch flags of the fault monitor over a sequence of
fault-bit pairs: `true` in a cycle iff that cycle changed the LEDs. -/
def runFaults (mode : Bool) : List (Bool × Bool) → List Bool
  | [] => []
  | (f1, f2) :: rest =>
    let s := faultStep mode f1 f2
    (!s.2.isEmpty) :: runFaults s.1 rest

example : sessionStep initialState [63] false false =
    .ok (initialState, [.sendTo "T=Diddyborg"]) := rfl
example : runFaults true [(false, true), (true, true), (false, false)] =
    [true, false, true] := rfl

/-! ## Spec-side control law (for the refinement claim) -/

/-- The control law exactly as the spec enumerates it (§4.3, steps 1-5):
attenuation, initialisation, dead-zone/turn mix, slow multiplier,
power-limit multiplication.  Written from the spec's wording, to be
compared against the code-derived `driveCommand`. -/
def computeDriveSpec (steering throttle : ℚ) (fastTurn slow : Bool)
    (maxPower slowFactor : ℚ) : ℚ × ℚ :=
  let s1 := if fastTurn then steering else steering * 0.5
  let l2 := -throttle
  let r2 := -throttle
  let l3 := if s1 < -0.05 then l2 * (1.0 + 2.0 * s1) else l2
  let r3 :=
    if s1 < -0.05 then r2
    else if s1 > 0.05 then r2 * (1.0 - 2.0 * s1)
    else r2
  let l4 := if slow then l3 * slowFactor else l3
  let r4 := if slow then r3 * slowFactor else r3
  (l4 * maxPower, r4 * maxPower)

/-! ## Shared helper lemmas -/

/-- A successful decode forces an 18-byte payload. -/
theorem decodeFrame_ok_length {raw : List ℕ} {f : ChannelFrame}
    (h : decodeFrame raw = .ok f) : raw.length = 18 := by
  by_contra hne
  simp [decodeFrame, hne] at h

/-- A payload whose length is not 18 fails to decode. -/
theorem decodeFrame_wrong_length {raw : List ℕ} (h : raw.length ≠ 18) :
    decodeFrame raw = .error .wrongLength := by
  simp [decodeFrame, h]

/-- On a decodable payload the loop iteration runs the control pipeline. -/
theorem sessionStep_ok_frame (st : LoopState) (raw : List ℕ) (f1 f2 : Bool)
    (frame : ChannelFrame) (h : decodeFrame raw = .ok frame) :
    sessionStep st raw f1 f2 = .ok (processFrame st frame f1 f2) := by
  have hlen := decodeFrame_ok_length h
  have hq : raw ≠ [63] := by intro e; rw [e] at hlen; simp at hlen
  have hz : raw ≠ [48] := by intro e; rw [e] at hlen; simp at hlen
  simp [sessionStep, hq, hz, h]

/-- The new LED mode after a fault step is the negation of the current
fault status. -/
theorem faultStep_mode (mode f1 f2 : Bool) :
    (faultStep mode f1 f2).1 = !(f1 || f2) := by
  cases mode <;> cases f1 <;> cases f2 <;> rfl

/-- A fault step emits LED effects exactly when the fault status differs
from the status recorded by the LED mode. -/
theorem faultStep_flag (mode f1 f2 : Bool) :
    (!(faultStep mode f1 f2).2.isEmpty) = ((f1 || f2) != !mode) := by
  cases mode <;> cases f1 <;> cases f2 <;> rfl

/-! ## Claim theorems -/

/-- C1: for every steering value, throttle value, `fastTurn`/`slow`
buttons and `maxPower`/`slowFactor` parameters, the code's drive
computation coincides with the spec's five-step algorithm in exactly the
stated order: attenuate steering unless `fastTurn`, initialise both
drives to `-throttle`, scale only the left drive when steering is below
`-0.05` and only the right one when above `0.05`, apply `slowFactor`
when `slow`, and finally multiply both by `maxPower`. -/
theorem drive_computation_order (s t : ℚ) (ft sl : Bool) (mp sf : ℚ) :
    computeDriveSpec s t ft sl mp sf = driveCommand s t ft sl sf mp := by
  simp only [computeDriveSpec, driveCommand, computeDrive]
  split_ifs <;> rfl

/-- C6: over any sequence of per-cycle fault-bit pairs, with current
status `fault1 || fault2`, the LED dispatch flag is true exactly at the
cycles where the current status differs from the previous one (the
status before the first cycle being the negation of the entry LED mode);
LED effects are emitted only on those transition cycles. -/
theorem fault_edge_trigger (mode : Bool) (fs : List (Bool × Bool)) :
    runFaults mode fs =
      List.zipWith (fun c p => c != p) (fs.map fun p => p.1 || p.2)
        ((!mode) :: fs.map fun p => p.1 || p.2) := by
  induction fs generalizing mode with
  | nil => rfl
  | cons hd tl ih =>
    obtain ⟨f1, f2⟩ := hd
    simp only [runFaults, List.map_cons, List.zipWith_cons_cons,
      faultStep_mode, faultStep_flag]
    rw [ih]
    simp [Bool.not_not]

/-- C7: the power-limit computation agrees with
`min 1 (voltageOut / voltageIn)` for all positive voltages, and in
particular gives `0.95` for `11.4`/`12.0` and `1.0` for `13.0`/`12.0`. -/
theorem maxPower_is_min (vIn vOut : ℚ) (hIn : 0 < vIn) (_hOut : 0 < vOut) :
    maxPowerOf vOut vIn = min 1 (vOut / vIn) ∧
    maxPowerOf 11.4 12.0 = 0.95 ∧ maxPowerOf 13.0 12.0 = 1.0 := by
  refine ⟨?_, by norm_num [maxPowerOf], by norm_num [maxPowerOf]⟩
  unfold maxPowerOf
  rcases lt_or_le vIn vOut with h | h
  · rw [if_pos h, min_eq_left ((one_le_div hIn).mpr h.le)]
    norm_num
  · rw [if_neg (not_lt.mpr h), min_eq_right ((div_le_one hIn).mpr h)]

/-- C7 witness: the general statement instantiated at the default
voltages 12.0 in, 11.4 out. -/
theorem maxPower_is_min_witness :
    maxPowerOf 11.4 12.0 = min 1 (11.4 / 12.0) :=
  (maxPower_is_min 12.0 11.4 (by norm_num) (by norm_num)).1

/-- C8: encoding any frame of 16-bit channel values as 2 header bytes
followed by the 8 values in the frame's little-endian byte order, then
decoding the resulting 18-byte payload, reproduces the channel values
exactly. -/
theorem frame_round_trip (h1 h2 : ℕ) (f : ChannelFrame) (hw : f.wf) :
    decodeFrame (encodeFrame h1 h2 f) = .ok f := by
  obtain ⟨a, b, c, d, e, g, i, j⟩ := f
  have h : decodeFrame (encodeFrame h1 h2 ⟨a, b, c, d, e, g, i, j⟩) =
      Except.ok ⟨u16 (a % 256) (a / 256), u16 (b % 256) (b / 256),
        u16 (c % 256) (c / 256), u16 (d % 256) (d / 256),
        u16 (e % 256) (e / 256), u16 (g % 256) (g / 256),
        u16 (i % 256) (i / 256), u16 (j % 256) (j / 256)⟩ := rfl
  rw [h]
  simp only [u16, Except.ok.injEq, ChannelFrame.mk.injEq]
  omega

/-- C8 witness: round trip through a concrete all-centred frame. -/
theorem frame_round_trip_witness :
    (ChannelFrame.wf ⟨1500, 1500, 1500, 1500, 1500, 1500, 1500, 1500⟩) ∧
    decodeFrame (encodeFrame 0 0 ⟨1500, 1500, 1500, 1500, 1500, 1500, 1500, 1500⟩) =
      .ok ⟨1500, 1500, 1500, 1500, 1500, 1500, 1500, 1500⟩ :=
  ⟨by decide,
   frame_round_trip 0 0 ⟨1500, 1500, 1500, 1500, 1500, 1500, 1500, 1500⟩ (by decide)⟩

/-- C9: the single-byte query payloads `b'?'` and `b'0'` produce only
their fixed string replies; the loop state (in particular the commanded
drive values) is unchanged and no decoding, drive computation or motor
command occurs. -/
theorem query_bypass (st : LoopState) (f1 f2 : Bool) :
    sessionStep st [63] f1 f2 = .ok (st, [.sendTo "T=Diddyborg"]) ∧
    sessionStep st [48] f1 f2 = .ok (st, [.sendTo "1.0"]) :=
  ⟨rfl, rfl⟩

/-- C4: whenever the steering value after any fast-turn attenuation has
absolute value at most 0.05 (boundaries included), both final drive
commands equal `-throttle * (slowFactor if slow else 1) * maxPower`:
the dead zone produces a symmetric drive. -/
theorem dead_zone_symmetric (s t : ℚ) (ft sl : Bool) (sf mp : ℚ)
    (h : |if ft then s else s * 0.5| ≤ 0.05) :
    driveCommand s t ft sl sf mp =
      (-t * (if sl then sf else 1) * mp, -t * (if sl then sf else 1) * mp) := by
  obtain ⟨h1, h2⟩ := abs_le.mp h
  have hnl : ¬ ((if ft then s else s * 0.5) < -0.05) := not_lt.mpr h1
  have hng : ¬ ((if ft then s else s * 0.5) > 0.05) := not_lt.mpr h2
  simp only [driveCommand, computeDrive]
  rw [if_neg hnl, if_neg hng]
  cases sl <;> simp

/-- C4 witness: both dead-zone boundaries, at throttle 2 with no
modifiers active. -/
theorem dead_zone_symmetric_witness :
    (|if true then (0.05 : ℚ) else 0.05 * 0.5| ≤ 0.05 ∧
      driveCommand 0.05 2 true false 0.5 1 =
        (-2 * (if false then (0.5 : ℚ) else 1) * 1,
         -2 * (if false then (0.5 : ℚ) else 1) * 1)) ∧
    (|if true then (-0.05 : ℚ) else -0.05 * 0.5| ≤ 0.05 ∧
      driveCommand (-0.05) 2 true false 0.5 1 =
        (-2 * (if false then (0.5 : ℚ) else 1) * 1,
         -2 * (if false then (0.5 : ℚ) else 1) * 1)) :=
  ⟨⟨by rw [abs_le]; norm_num,
    dead_zone_symmetric 0.05 2 true false 0.5 1 (by rw [abs_le]; norm_num)⟩,
   ⟨by rw [abs_le]; norm_num,
    dead_zone_symmetric (-0.05) 2 true false 0.5 1 (by rw [abs_le]; norm_num)⟩⟩

/-- C10: in every cycle at least one of the two final drive commands
equals the unmixed value `-throttle * (slowFactor if slow else 1) *
maxPower`; when the (possibly attenuated) steering is below the dead
zone only the left drive is modified (the right keeps the unmixed
value), and when it is above only the right drive is modified. -/
theorem single_side_mixing (s t : ℚ) (ft sl : Bool) (sf mp : ℚ) :
    ((driveCommand s t ft sl sf mp).1 = -t * (if sl then sf else 1) * mp ∨
     (driveCommand s t ft sl sf mp).2 = -t * (if sl then sf else 1) * mp) ∧
    ((if ft then s else s * 0.5) < -0.05 →
      (driveCommand s t ft sl sf mp).2 = -t * (if sl then sf else 1) * mp) ∧
    (0.05 < (if ft then s else s * 0.5) →
      (driveCommand s t ft sl sf mp).1 = -t * (if sl then sf else 1) * mp) := by
  have hleft : ∀ h : (if ft then s else s * 0.5) < -0.05,
      (driveCommand s t ft sl sf mp).2 = -t * (if sl then sf else 1) * mp := by
    intro h
    simp only [driveCommand, computeDrive]
    rw [if_pos h]
    cases sl <;> simp
  have hright : ∀ h : 0.05 < (if ft then s else s * 0.5),
      (driveCommand s t ft sl sf mp).1 = -t * (if sl then sf else 1) * mp := by
    intro h
    have hnl : ¬ ((if ft then s else s * 0.5) < -0.05) := by
      push_neg
      linarith
    simp only [driveCommand, computeDrive]
    rw [if_neg hnl, if_pos h]
    cases sl <;> simp
  refine ⟨?_, hleft, hright⟩
  by_cases hlt : (if ft then s else s * 0.5) < -0.05
  · exact Or.inr (hleft hlt)
  · by_cases hgt : 0.05 < (if ft then s else s * 0.5)
    · exact Or.inl (hright hgt)
    · left
      simp only [driveCommand, computeDrive]
      rw [if_neg hlt, if_neg hgt]
      cases sl <;> simp

/-- C10 witness: the two conditional parts instantiated at steering -1
(only the left drive mixed) and +1 (only the right drive mixed). -/
theorem single_side_mixing_witness :
    (driveCommand (-1) 1 true false 0.5 1).2 =
      -1 * (if false then (0.5 : ℚ) else 1) * 1 ∧
    (driveCommand 1 1 true false 0.5 1).1 =
      -1 * (if false then (0.5 : ℚ) else 1) * 1 :=
  ⟨(single_side_mixing (-1) 1 true false 0.5 1).2.1 (by norm_num),
   (single_side_mixing 1 1 true false 0.5 1).2.2 (by norm_num)⟩

/-- In the turning-left branch the final left drive command is
`-throttle * (1 + 2*steering)` times the slow and power factors. -/
theorem driveLeft_turning (s t : ℚ) (sl : Bool) (sf mp : ℚ)
    (hs : s < -0.05) :
    (driveCommand s t true sl sf mp).1 =
      -t * (1.0 + 2.0 * s) * ((if sl then sf else 1) * mp) := by
  simp only [driveCommand, computeDrive]
  simp only [if_pos hs, if_true]
  cases sl
  · simp
  · simp
    ring

/-- C5 counterexample: with throttle 1 (nonzero), fast turn held, slow
off, at steering values -1 < -0.6 < -0.05 the left drive magnitude is
1 at steering -1 but only 1/5 at steering -0.6, so the magnitude is not
monotonically decreasing towards more negative steering. -/
theorem turn_left_monotone_cex :
    (-1 : ℚ) < -0.6 ∧ (-0.6 : ℚ) < -0.05 ∧ (1 : ℚ) ≠ 0 ∧
    ¬ (|(driveCommand (-1) 1 true false 0.5 1).1| ≤
       |(driveCommand (-0.6) 1 true false 0.5 1).1|) := by
  refine ⟨by norm_num, by norm_num, one_ne_zero, ?_⟩
  have e1 : (driveCommand (-1) 1 true false 0.5 1).1 = 1 := by
    norm_num [driveCommand, computeDrive]
  have e2 : (driveCommand (-0.6) 1 true false 0.5 1).1 = 1/5 := by
    norm_num [driveCommand, computeDrive]
  rw [e1, e2, abs_of_nonneg (by norm_num : (0:ℚ) ≤ 1),
    abs_of_nonneg (by norm_num : (0:ℚ) ≤ 1/5)]
  norm_num

/-- C5 (amended): for a fixed nonzero throttle and fixed modifiers, the
left drive magnitude is monotone in steering below the dead zone only
while the turn-mixing factor stays nonnegative, i.e. for steering values
in [-0.5, -0.05): if -0.5 ≤ s1 < s2 < -0.05 then
|driveLeft(s1)| ≤ |driveLeft(s2)|.  (Beyond -0.5 the factor
`1 + 2*steering` turns negative and the magnitude grows again, as the
counterexample shows.) -/
theorem turn_left_monotone (t sf mp : ℚ) (sl : Bool) (_ht : t ≠ 0)
    (s1 s2 : ℚ) (h0 : -0.5 ≤ s1) (h12 : s1 < s2) (h2 : s2 < -0.05) :
    |(driveCommand s1 t true sl sf mp).1| ≤
      |(driveCommand s2 t true sl sf mp).1| := by
  have e1 := driveLeft_turning s1 t sl sf mp (by linarith)
  have e2 := driveLeft_turning s2 t sl sf mp h2
  rw [e1, e2]
  simp only [abs_mul]
  have hx : |1.0 + 2.0 * s1| ≤ |1.0 + 2.0 * s2| := by
    rw [abs_of_nonneg (by linarith), abs_of_nonneg (by linarith)]
    linarith
  gcongr

/-! ## C2 and C3: decoded-frame handling in the session loop -/

/-- A concrete frame: first channel full-low (1000), second centred
(1500), buttons released. -/
def frameA : ChannelFrame := ⟨1000, 1500, 1000, 1000, 1500, 1500, 1500, 1500⟩

/-- C2 counterexample: on `frameA` the throttle input computed by the
code is not the normalisation of the first decoded channel (it is 0,
from the centred second channel, while the first channel normalises to
-1), and the steering input is not the normalisation of the second
decoded channel. -/
theorem axis_mapping_cex :
    mappedThrottle frameA ≠ normalizeAxis axisUpDownInverted (frameA.channel 0) ∧
    mappedSteering frameA ≠ normalizeAxis axisLeftRightInverted (frameA.channel 1) := by
  constructor <;>
    norm_num [mappedThrottle, mappedSteering, normalizeAxis,
      axisUpDownInverted, axisLeftRightInverted, frameA, ChannelFrame.channel]

/-- C2 (amended): in the decoded frame, channel index 1 carries the
steering axis and channel index 2 the throttle axis: on every payload
that decodes to a frame, the session loop runs the control pipeline with
the steering input normalised from the first decoded 16-bit channel
value and the throttle input from the second, and dispatches the
resulting drive commands to the motors. -/
theorem axis_mapping_swapped (st : LoopState) (raw : List ℕ) (f1 f2 : Bool)
    (frame : ChannelFrame) (h : decodeFrame raw = .ok frame) :
    sessionStep st raw f1 f2 = .ok (processFrame st frame f1 f2) ∧
    (processFrame st frame f1 f2).2.take 2 =
      [Effect.setMotor1 ((driveCommand
          (normalizeAxis axisLeftRightInverted (frame.channel 0))
          (normalizeAxis axisUpDownInverted (frame.channel 1))
          (buttonPushed frame buttonFastTurn) (buttonPushed frame buttonSlow)
          slowFactor maxPower).1),
       Effect.setMotor2 ((driveCommand
          (normalizeAxis axisLeftRightInverted (frame.channel 0))
          (normalizeAxis axisUpDownInverted (frame.channel 1))
          (buttonPushed frame buttonFastTurn) (buttonPushed frame buttonSlow)
          slowFactor maxPower).2)] :=
  ⟨sessionStep_ok_frame st raw f1 f2 frame h, rfl⟩

/-- An 18-byte payload holding 1500 on all eight channels. -/
def raw1500 : List ℕ :=
  [0, 0, 220, 5, 220, 5, 220, 5, 220, 5, 220, 5, 220, 5, 220, 5, 220, 5]

/-- The frame decoded from `raw1500`. -/
def frame1500 : ChannelFrame := ⟨1500, 1500, 1500, 1500, 1500, 1500, 1500, 1500⟩

/-- C2 witness: the amended mapping statement at the concrete all-centred
payload. -/
theorem axis_mapping_swapped_witness :
    sessionStep initialState raw1500 false false =
      .ok (processFrame initialState frame1500 false false) :=
  (axis_mapping_swapped initialState raw1500 false false frame1500 rfl).1

/-- C3 counterexample: a 3-byte payload makes the uncaught decode error
terminate the whole loop: running the loop on the bad payload followed
by a valid control frame produces no effects at all (the valid frame is
never processed), while the valid frame alone produces the two motor
commands. -/
theorem wrong_length_cex :
    runSession initialState
        [([1, 2, 3], false, false), (raw1500, false, false)] =
      (initialState, [], some DecodeError.wrongLength) ∧
    ((runSession initialState [(raw1500, false, false)]).2.1).length = 2 :=
  ⟨rfl, rfl⟩

/-- C3 (amended): every received payload that is not one of the two
single-byte query requests and whose length is not exactly 18 bytes
fails to decode with the wrong-length error; the error is not caught, so
the session loop terminates at that iteration and subsequent frames are
not processed. -/
theorem wrong_length_terminates (st : LoopState) (data : List ℕ)
    (f1 f2 : Bool) (hq : data ≠ [63]) (hz : data ≠ [48])
    (hl : data.length ≠ 18) :
    sessionStep st data f1 f2 = .error .wrongLength ∧
    ∀ rest, runSession st ((data, f1, f2) :: rest) =
      (st, [], some DecodeError.wrongLength) := by
  have hstep : sessionStep st data f1 f2 = .error .wrongLength := by
    simp [sessionStep, hq, hz, decodeFrame_wrong_length hl]
  exact ⟨hstep, fun rest => by simp [runSession, hstep]⟩

/-- C3 witness: the amended statement at the concrete 3-byte payload. -/
theorem wrong_length_terminates_witness :
    sessionStep initialState [1, 2, 3] false false = .error .wrongLength ∧
    runSession initialState [([1, 2, 3], false, false)] =
      (initialState, [], some DecodeError.wrongLength) :=
  ⟨(wrong_length_terminates initialState [1, 2, 3] false false
      (by decide) (by decide) (by decide)).1,
   (wrong_length_terminates initialState [1, 2, 3] false false
      (by decide) (by decide) (by decide)).2 []⟩

/-- C5 witness: the amended monotonicity at the concrete steering values
-0.4 < -0.1 within [-0.5, -0.05). -/
theorem turn_left_monotone_witness :
    |(driveCommand (-0.4) 1 true false 0.5 1).1| ≤
      |(driveCommand (-0.1) 1 true false 0.5 1).1| :=
  turn_left_monotone 1 0.5 1 false (by norm_num) (-0.4) (-0.1)
    (by norm_num) (by norm_num) (by norm_num)
